import Mathlib

/-!
Verification of the validation/orchestration core of ganeti_webmgr.

Shallow embedding of:
  * `ganeti/forms/virtual_machine.py` — `VirtualMachineForm.clean_hostname`,
    `NewVirtualMachineForm.clean`, `check_quota_modify`,
    `ModifyVirtualMachineForm.clean`, `RenameForm.clean_hostname`;
  * `ganeti_web/views/node.py` — the `role` view and `EvacuateForm.clean`.

Conventions used throughout:
  * Django's `form._errors` dict (field name -> messages from `error_class([msg])`,
    always a single message at every assignment site in this code) is embedded as
    an association list `Errors`; dict assignment overwrites, `del` removes.
  * `cleaned_data` keys that the code can delete, or that can be absent after
    field validation, are `Option` fields; `data.get(k, default)` is `Option.getD`.
  * Python ints are `Int` (unbounded, and quota arithmetic such as
    `used + requested - reservation` can go negative).
  * External collaborators (repository lookups, permission oracle, quota and
    used-resources lookups, the job service) are parameters of the embedded
    functions, mirroring the spec's "opaque collaborator" boundary.
-/

namespace GanetiWeb

/-! ### Error maps (Django `form._errors`) -/

/-- `form._errors` as an association list: field name paired with the single
message each assignment site stores via `self.error_class([msg])`. -/
abbrev Errors := List (String × String)

/-- Key membership in the error map (`k in self._errors`). -/
def ehas (k : String) (e : Errors) : Bool :=
  e.any (fun p => p.1 == k)

/-- Message stored under a key, if any. -/
def eget (k : String) (e : Errors) : Option String :=
  (e.find? (fun p => p.1 == k)).map (fun p => p.2)

/-- Dict assignment `self._errors[k] = self.error_class([v])`: overwrites. -/
def eset (k v : String) (e : Errors) : Errors :=
  (k, v) :: e.filter (fun p => p.1 != k)

/-- Dict deletion `del self._errors[k]`. -/
def edel (k : String) (e : Errors) : Errors :=
  e.filter (fun p => p.1 != k)

/-! ### `VirtualMachineForm.clean_hostname` (forms/virtual_machine.py:43-70)

The repository lookup `VirtualMachine.objects.get(cluster=cluster,
hostname=hostname)` is a parameter `existing : Option ExistingVM`
(`none` embeds the `VirtualMachine.DoesNotExist` branch). `owner.cast()`
values are embedded as numeric identifiers. -/

/-- The fields of the pre-existing `VirtualMachine` read by `clean_hostname`:
`pending_delete`, `template` (a reference, possibly `None`) and the cast owner. -/
structure ExistingVM where
  pending_delete : Bool
  template : Option Nat
  owner : Nat
deriving DecidableEq

/-- Outcome of `clean_hostname`: a raised `ValidationError` message if any,
the `self._errors["owner"]` message if any, the stored `data['vm_recovery']`,
and the returned hostname (absent when the method raised). -/
structure HostnameCleanResult where
  raised : Option String
  ownerError : Option String
  vm_recovery : Option ExistingVM
  returned : Option String
deriving DecidableEq

def hostnameConflictMsg : String := "Hostname is already in use for this cluster"

def recoveryOwnerMsg : String :=
  "Owner cannot be changed when recovering a failed deployment"

/-- `VirtualMachineForm.clean_hostname`.  `formOwner` is `self.owner` (cast
owner id, `none` when unresolved), `clusterPresent` is the truthiness of
`data.get('cluster')`. -/
def clean_hostname (formOwner : Option Nat) (existing : Option ExistingVM)
    (hostname : Option String) (clusterPresent : Bool) : HostnameCleanResult :=
  if hostname.getD "" ≠ "" ∧ clusterPresent then
    match existing with
    | some vm =>
        if ¬vm.pending_delete ∧ vm.template.isSome then
          if some vm.owner = formOwner then
            ⟨none, none, some vm, hostname⟩
          else
            ⟨none, some recoveryOwnerMsg, none, hostname⟩
        else
          ⟨some hostnameConflictMsg, none, none, none⟩
    | none => ⟨none, none, none, hostname⟩
  else ⟨none, none, none, hostname⟩

/-! ### `RenameForm.clean_hostname` (forms/virtual_machine.py:624-629) -/

def renameHostnameMsg : String :=
  "The new hostname must be different than the current hostname"

/-- `RenameForm.clean_hostname`: `hostname = data.get('hostname', None)`;
raises when the (truthy) hostname equals `self.vm.hostname`, otherwise
returns the hostname unchanged. -/
def rename_clean_hostname (vmHostname : String) (hostname : Option String) :
    Except String (Option String) :=
  if hostname.getD "" ≠ "" ∧ hostname.getD "" = vmHostname then
    .error renameHostnameMsg
  else
    .ok hostname

/-! ### `EvacuateForm.clean` (views/node.py:259-272) -/

/-- Cleaned data of `EvacuateForm`: `iallocator` (BooleanField, always
present), `iallocator_hostname` (hidden CharField, cleared to `None` by
`clean`), and `node` (`data['node'] if 'node' in data else None`). -/
structure EvacData where
  iallocator : Bool
  iallocator_hostname : Option String
  node : Option String
deriving DecidableEq

def evacChooseMsg : String := "Must choose automatic allocation or a specific node"

/-- `EvacuateForm.clean`.  A raised `ValidationError` in `clean` becomes a
single top-level (`__all__`) error, embedded as `.error`. -/
def evacuate_clean (d : EvacData) : Except String EvacData :=
  if d.iallocator then
    .ok { d with node := none }
  else if d.node.getD "" ≠ "" then
    .ok { d with iallocator_hostname := none }
  else
    .error evacChooseMsg

/-! ### The `role` view (views/node.py:151-178)

`request.user` carries `is_superuser` and, through the authorization oracle
`has_any_perms(cluster, [...])`, the set of permissions the user holds on
the cluster in question.  The external job service `node.set_role` is a
parameter returning either `job.info` or a `GanetiApiError` message. -/

/-- The acting user, restricted to what the node views read: the superuser
flag and the user's permissions on the cluster being operated on. -/
structure WebUser where
  is_superuser : Bool
  cluster_perms : List String
deriving DecidableEq

/-- `user.has_any_perms(cluster, perms)`: does the user hold any of `perms`
on the cluster? -/
def has_any_perms (u : WebUser) (perms : List String) : Bool :=
  perms.any (fun p => u.cluster_perms.contains p)

/-- Observable outcome of a POST to the `role` view. -/
inductive RoleOutcome where
  | forbidden
  | jobInfo (info : String)
  | apiError (msg : String)
  | formErrors
deriving DecidableEq

/-- The `role` view on a POST request.  `form` is `some role` when
`RoleForm` validated (with `role` the cleaned new role) and `none` when it
did not; `set_role` is the external job service.  The second component
records whether `node.set_role` was invoked (a job submission attempt). -/
def role (u : WebUser) (form : Option String)
    (set_role : String → Except String String) : RoleOutcome × Bool :=
  if ¬(u.is_superuser ∨ has_any_perms u ["admin", "migrate"]) then
    (.forbidden, false)
  else
    match form with
    | some r =>
        match set_role r with
        | .ok info => (.jobInfo info, true)
        | .error e => (.apiError e, true)
    | none => (.formErrors, false)

/-! ### Quota data (`cluster.get_quota`, `owner.used_resources`)

`Cluster.get_quota(owner)` and `ClusterUser.used_resources(cluster,
only_running=True)` live in `ganeti/models.py`, outside `src/`; the records
they return are parameters here. -/

/-- The quota dict `{ram, disk, virtual_cpus}`; `none` embeds a Python
`None` entry ("unlimited"). -/
structure QuotaDict where
  ram : Option Int
  disk : Option Int
  virtual_cpus : Option Int
deriving DecidableEq

/-- The `used_resources` snapshot (`used['ram']`, `used['disk']`,
`used['virtual_cpus']`). -/
structure UsedResources where
  ram : Int
  disk : Int
  virtual_cpus : Int
deriving DecidableEq

/-- The current commitment of the VM being modified, as read by
`check_quota_modify` (`vm.ram` and `vm.virtual_cpus`; note the function
reads no disk counterpart). -/
structure VMReservation where
  ram : Int
  virtual_cpus : Int
deriving DecidableEq

/-- Modelled from the spec: `cluster.get_quota` (ganeti/models.py, not under
src/) returns the quota record carrying its `ram`/`disk`/`virtual_cpus`
entries (§4.2 evaluates every resource with a set limit), so the Python
guard `if quota.values():` tests a non-empty dict and is always truthy. -/
def quotaValuesTruthy (_q : QuotaDict) : Bool := true

/-! ### `check_quota_modify` (forms/virtual_machine.py:427-458) -/

/-- The slice of `form.cleaned_data` read and written by
`check_quota_modify`: `start`, `memory`, `vcpus`, `disk_size`.  `memory`
and `vcpus` are required fields, hence present whenever the check runs;
deletion by the check is embedded as `none`. -/
structure QuotaData where
  start : Bool
  memory : Option Int
  vcpus : Option Int
  disk_size : Option Int
deriving DecidableEq

def ramModifyMsg : String :=
  "Owner does not have enough ram remaining on this cluster. You must reduce the amount of ram."

def diskQuotaMsg : String :=
  "Owner does not have enough diskspace remaining on this cluster."

def vcpuModifyMsg : String :=
  "Owner does not have enough virtual cpus remaining on this cluster. You must reduce the amount of virtual cpus."

/-- The RAM branch of `check_quota_modify`: fires when the VM is flagged to
start, `quota['ram'] is not None`, and `used['ram'] + data['memory'] -
vm.ram > quota['ram']`; deletes `memory` and writes the `ram` error. -/
def quotaRamModify (q : QuotaDict) (u : UsedResources) (vm : VMReservation)
    (de : QuotaData × Errors) : QuotaData × Errors :=
  match q.ram with
  | some qr =>
      if de.1.start = true ∧ u.ram + de.1.memory.getD 0 - vm.ram > qr then
        ({ de.1 with memory := none }, eset "ram" ramModifyMsg de.2)
      else de
  | none => de

/-- The disk branch: only runs when `'disk_size' in data`; fires when
`quota['disk']` is truthy (set and non-zero) and `used['disk'] +
data['disk_size'] > quota['disk']` — with no subtraction of the VM's
current disk; deletes `disk_size` and writes the `disk_size` error. -/
def quotaDiskModify (q : QuotaDict) (u : UsedResources)
    (de : QuotaData × Errors) : QuotaData × Errors :=
  if de.1.disk_size.isSome then
    match q.disk with
    | some qd =>
        if qd ≠ 0 ∧ u.disk + de.1.disk_size.getD 0 > qd then
          ({ de.1 with disk_size := none }, eset "disk_size" diskQuotaMsg de.2)
        else de
    | none => de
  else de

/-- The virtual-cpus branch: fires when the VM is flagged to start,
`quota['virtual_cpus'] is not None`, and `used['virtual_cpus'] +
data['vcpus'] - vm.virtual_cpus > quota['virtual_cpus']`. -/
def quotaCpuModify (q : QuotaDict) (u : UsedResources) (vm : VMReservation)
    (de : QuotaData × Errors) : QuotaData × Errors :=
  match q.virtual_cpus with
  | some qv =>
      if de.1.start = true ∧ u.virtual_cpus + de.1.vcpus.getD 0 - vm.virtual_cpus > qv then
        ({ de.1 with vcpus := none }, eset "vcpus" vcpuModifyMsg de.2)
      else de
  | none => de

/-- `check_quota_modify(form)`.  `ownerPresent` is the truthiness of
`form.owner` (`if owner is not None`); the quota dict, used-resources
snapshot and the VM's current commitment are the values the external
lookups return for `(cluster, owner)`. -/
def check_quota_modify (ownerPresent : Bool) (q : QuotaDict)
    (u : UsedResources) (vm : VMReservation)
    (d : QuotaData) (e : Errors) : QuotaData × Errors :=
  if ownerPresent then
    if quotaValuesTruthy q then
      quotaCpuModify q u vm (quotaDiskModify q u (quotaRamModify q u vm (d, e)))
    else (d, e)
  else (d, e)

/-- The quota-modification check as the spec words it (§4.2): for each of
RAM, vCPU and disk with a set limit, `used + requested - previousReservation
<= limit`, with `previousReservation` the VM's current committed resources;
RAM and vCPU gated on the start flag, disk always checked.  Returns the
violated resource fields.  This definition follows the SPEC, not the source;
it exists to be compared with `check_quota_modify`. -/
def checkQuotaDeltaSpec (q : QuotaDict) (u : UsedResources)
    (vmRam vmCpu vmDisk : Int) (d : QuotaData) : List String :=
  (match q.ram with
   | some qr =>
       if d.start = true ∧ u.ram + d.memory.getD 0 - vmRam > qr then ["ram"] else []
   | none => []) ++
  (match q.disk with
   | some qd =>
       if u.disk + d.disk_size.getD 0 - vmDisk > qd then ["disk_size"] else []
   | none => []) ++
  (match q.virtual_cpus with
   | some qv =>
       if d.start = true ∧ u.virtual_cpus + d.vcpus.getD 0 - vmCpu > qv then ["vcpus"] else []
   | none => [])

/-! ### `ModifyVirtualMachineForm.clean` (forms/virtual_machine.py:556-584) -/

/-- Cleaned data of the modification form as read by its `clean`: the
kernel/initrd paths, the VNC TLS chain, and the resource fields handed to
`check_quota_modify`.  `start` is injected and deleted around the quota
call and is therefore not a field here. -/
structure ModifyData where
  kernel_path : Option String
  initrd_path : Option String
  vnc_tls : Bool
  vnc_x509_path : Option String
  vnc_x509_verify : Bool
  memory : Option Int
  vcpus : Option Int
  disk_size : Option Int
deriving DecidableEq

def kernelPathMsg : String :=
  "Kernel Path must be specified along with Initrd Path."

def vncTlsMsg : String := "This field can not be set without VNC TLS enabled."

def vncPathRequiredMsg : String := "This field is required."

/-- `ModifyVirtualMachineForm.clean`.  `ownerPresent` is the truthiness of
`self.owner`; `rebootRequested` is `'reboot' in self.data` and
`vmIsRunning` is `self.vm.is_running` (the two inputs of the transient
`start` flag). -/
def modify_clean (ownerPresent rebootRequested vmIsRunning : Bool)
    (q : QuotaDict) (u : UsedResources) (vm : VMReservation)
    (d : ModifyData) (e : Errors) : ModifyData × Errors :=
  let de :=
    if d.initrd_path.getD "" ≠ "" ∧ d.kernel_path.getD "" = "" then
      ({ d with initrd_path := none },
       eset "initrd_path" kernelPathMsg (eset "kernel_path" kernelPathMsg e))
    else (d, e)
  let d := de.1
  let e := de.2
  let e :=
    if ¬d.vnc_tls ∧ d.vnc_x509_path.getD "" ≠ "" then
      eset "vnc_x509_path" vncTlsMsg e
    else e
  let e :=
    if d.vnc_x509_verify ∧ d.vnc_x509_path.getD "" = "" then
      eset "vnc_x509_path" vncPathRequiredMsg e
    else e
  if ownerPresent then
    let start := rebootRequested ∨ vmIsRunning
    let qde := check_quota_modify true q u vm
      ⟨start, d.memory, d.vcpus, d.disk_size⟩ e
    ({ d with memory := qde.1.memory, vcpus := qde.1.vcpus,
              disk_size := qde.1.disk_size }, qde.2)
  else (d, e)

/-! ### `NewVirtualMachineForm.clean` (forms/virtual_machine.py:240-424)

One `VMState` carries `cleaned_data` and `self._errors`.  Fields that the
method deletes, or that field validation can leave absent, are `Option`;
`pnode`, `snode`, `boot_order` and `cdrom_image_path` are read exclusively
through `data.get(k, '')`, so they are plain strings and `del` resets them
to `''` (no claim observes their presence). -/

/-- `self.owner` (a `ClusterUser` cast to user or organization), restricted
to what `clean` reads: the `Organization` type test, the membership /
identity tests against the acting user, the two cluster permissions, and
the grantee reference stored into `data['grantee']`. -/
structure Owner where
  isOrg : Bool
  userIsMember : Bool
  userIdMatches : Bool
  hasCreateVm : Bool
  hasAdmin : Bool
  granteeId : Nat
deriving DecidableEq

/-- Cleaned data of the creation form as read by `clean`. -/
structure NewVMData where
  disk_template : Option String
  disk_size : Option Int
  pnode : String
  snode : String
  iallocator : Bool
  iallocator_hostname : String
  boot_order : String
  cdrom_image_path : String
  hypervisor : Option String
  disk_type : Option String
  nic_type : Option String
  start : Bool
  memory : Option Int
  vcpus : Option Int
  owner : Option Nat
  cluster : Option Nat
  grantee : Option Nat
deriving DecidableEq

/-- `cleaned_data` plus `self._errors`, threaded through `clean`. -/
structure VMState where
  data : NewVMData
  errors : Errors
deriving DecidableEq

/-- The `ganeti.constants` legal-value sets consulted by the hypervisor
checks (`ganeti/constants.py` is not under src/; the sets are parameters). -/
structure HvConsts where
  kvm_disk_types : List String
  hv_disk_types : List String
  hvm_disk_types : List String
  kvm_nic_types : List String
  hv_nic_types : List String
  kvm_boot_order : List String
  hvm_boot_order : List String
deriving DecidableEq

/-- Modelled from the spec: `ganeti.utilities.contains` (not under src/)
tests membership of a value in a legal-value set (§4.1: "membership must be
checked against the union of hypervisor-specific and generic sets"); a
Python `None` value is a member of no set. -/
def contains (x : Option String) (l : List String) : Bool :=
  match x with
  | some v => l.contains v
  | none => false

def diskSizeMsg : String := "Disk size must be set and greater than zero"

def nodeMatchMsg : String := "Primary and Secondary Nodes must not match."

def cdromPathMsg : String := "Image path required if boot device is CD-ROM."

def iallocatorMsg : String :=
  "Automatic Allocation was selected, but there is no IAllocator available."

def ramNewMsg : String :=
  "Owner does not have enough ram remaining on this cluster. You may choose to not automatically start the instance or reduce the amount of ram."

def vcpuNewMsg : String :=
  "Owner does not have enough virtual cpus remaining on this cluster. You may choose to not automatically start the instance or reduce the amount of virtual cpus."

def memberMsg : String := "User is not a member of the specified group."

def behalfMsg : String := "You are not allowed to act on behalf of this user."

def clusterPermMsg : String := "Owner does not have permissions for this cluster."

/-- `str(x)` of an optional value, as Python's `'%s' % x` renders it. -/
def pyStr (x : Option String) : String :=
  match x with
  | some v => v
  | none => "None"

def diskTypeMsg (dt : Option String) : String :=
  pyStr dt ++ " is not a valid option for Disk Template on this cluster."

def nicTypeMsg (nt : Option String) : String :=
  pyStr nt ++ " is not a valid option for Nic Type on this cluster."

def bootOrderMsg (bo : String) : String :=
  bo ++ " is not a valid option for Boot Device on this cluster."

/-- Lines 248-251: on every disk template but `diskless`, a falsy
`data.get("disk_size", 0)` (absent or zero) sets the `disk_size` error. -/
def diskSizeCheck (s : VMState) : VMState :=
  if s.data.disk_template ≠ some "diskless" then
    if s.data.disk_size.getD 0 = 0 then
      { s with errors := eset "disk_size" diskSizeMsg s.errors }
    else s
  else s

/-- Lines 259-272 (and their 364-377 duplicate): on `drbd` without
automatic allocation, equal non-empty node choices set the `pnode` error
and delete both node values; otherwise a stale `snode` error is dropped. -/
def nodePairCheck (s : VMState) : VMState :=
  if s.data.disk_template = some "drbd" ∧ s.data.iallocator = false then
    if s.data.pnode = s.data.snode ∧ (s.data.pnode ≠ "" ∨ s.data.snode ≠ "") then
      { data := { s.data with pnode := "", snode := "" },
        errors := eset "pnode" nodeMatchMsg s.errors }
    else s
  else
    if ehas "snode" s.errors then { s with errors := edel "snode" s.errors } else s

/-- Lines 274-281 (and 379-386): boot device `cdrom` with an empty image
path sets the `cdrom_image_path` error and deletes the value. -/
def cdromCheck (s : VMState) : VMState :=
  if s.data.boot_order = "cdrom" ∧ s.data.cdrom_image_path = "" then
    { data := { s.data with cdrom_image_path := "" },
      errors := eset "cdrom_image_path" cdromPathMsg s.errors }
  else s

/-- Lines 283-294 (and 388-399): with automatic allocation selected, a
resolved allocator hostname clears any node errors, otherwise the
`iallocator` error is set. -/
def iallocCheck (s : VMState) : VMState :=
  if s.data.iallocator then
    if s.data.iallocator_hostname ≠ "" then
      { s with errors := edel "snode" (edel "pnode" s.errors) }
    else
      { s with errors := eset "iallocator" iallocatorMsg s.errors }
  else s

/-- Lines 302-308: resolve the grantee from the owner and store it into
`data['grantee']`. -/
def granteeAssign (owner : Option Owner) (s : VMState) : VMState :=
  match owner with
  | some o => { s with data := { s.data with grantee := some o.granteeId } }
  | none => s

/-- Lines 330-352: the creation-time quota block (`used + requested` against
each set limit; RAM and vCPU gated on `data['start']`, `quota['disk']`
tested for truthiness). -/
def quotaBlockNew (q : QuotaDict) (u : UsedResources) (s : VMState) : VMState :=
  if quotaValuesTruthy q then
    let s :=
      match q.ram with
      | some qr =>
          if s.data.start = true ∧ u.ram + s.data.memory.getD 0 > qr then
            { data := { s.data with memory := none },
              errors := eset "ram" ramNewMsg s.errors }
          else s
      | none => s
    let s :=
      match q.disk with
      | some qd =>
          if qd ≠ 0 ∧ u.disk + s.data.disk_size.getD 0 > qd then
            { data := { s.data with disk_size := none },
              errors := eset "disk_size" diskQuotaMsg s.errors }
          else s
      | none => s
    match q.virtual_cpus with
    | some qv =>
        if s.data.start = true ∧ u.virtual_cpus + s.data.vcpus.getD 0 > qv then
          { data := { s.data with vcpus := none },
            errors := eset "vcpus" vcpuNewMsg s.errors }
        else s
    | none => s
  else s

/-- Lines 310-356: the ownership/membership check, the cluster permission
check and the quota block, all guarded by `if not self.user.is_superuser
and owner:`; an accumulated `msg` finally lands on the `owner` error and
deletes `data['owner']`. -/
def permQuotaCheck (is_superuser : Bool) (owner : Option Owner)
    (q : QuotaDict) (u : UsedResources) (s : VMState) : VMState :=
  match owner with
  | some o =>
      if is_superuser = false then
        let msg : Option String :=
          if o.isOrg then
            if ¬o.userIsMember then some memberMsg else none
          else
            if ¬o.userIdMatches then some behalfMsg else none
        let smsg :=
          if s.data.cluster.isSome then
            (quotaBlockNew q u s,
             if ¬(o.hasCreateVm ∨ o.hasAdmin) then some clusterPermMsg else msg)
          else (s, msg)
        match smsg.2 with
        | some m =>
            { data := { smsg.1.data with owner := none },
              errors := eset "owner" m smsg.1.errors }
        | none => smsg.1
      else s
  | none => s

/-- Lines 401-421: the hypervisor-dependent legal-value checks for
`disk_type`, `nic_type` and `boot_order`. -/
def hvChecks (c : HvConsts) (s : VMState) : VMState :=
  let hv := s.data.hypervisor
  let dt := s.data.disk_type
  let nt := s.data.nic_type
  let bo := s.data.boot_order
  let s :=
    if (hv = some "kvm" ∧ ¬(contains dt c.kvm_disk_types ∨ contains dt c.hv_disk_types)) ∨
       (hv = some "xen-hvm" ∧ ¬(contains dt c.hvm_disk_types ∨ contains dt c.hv_disk_types)) then
      { s with errors := eset "disk_type" (diskTypeMsg dt) s.errors }
    else s
  let s :=
    if (hv = some "kvm" ∧ ¬(contains nt c.kvm_nic_types ∨ contains nt c.hv_nic_types)) ∨
       (hv = some "xen-hvm" ∧ ¬contains nt c.hv_nic_types) then
      { s with errors := eset "nic_type" (nicTypeMsg nt) s.errors }
    else s
  if (hv = some "kvm" ∧ ¬contains (some bo) c.kvm_boot_order) ∨
     (hv = some "xen-hvm" ∧ ¬contains (some bo) c.hvm_boot_order) then
    { s with errors := eset "boot_order" (bootOrderMsg bo) s.errors }
  else s

/-- `NewVirtualMachineForm.clean` (lines 240-424): the first structural
round, the `if self._errors: return data` early exit, the grantee
resolution, the permission/quota stage, the duplicated structural round,
and the hypervisor checks. -/
def newVMClean (is_superuser : Bool) (owner : Option Owner) (q : QuotaDict)
    (u : UsedResources) (c : HvConsts) (s : VMState) : VMState :=
  let s := diskSizeCheck s
  let s := nodePairCheck s
  let s := cdromCheck s
  let s := iallocCheck s
  if s.errors ≠ [] then s
  else
    let s := granteeAssign owner s
    let s := permQuotaCheck is_superuser owner q u s
    let s := nodePairCheck s
    let s := cdromCheck s
    let s := iallocCheck s
    hvChecks c s

/-- Modelled from the spec: field-stage cleaning of `disk_size`.
`DataVolumeField` lives in `ganeti/fields.py` (not under src/); the form
declares it with `min_value=100` (line 138) and it is required, and §4.3
has "disk_size required and > 0 unless disk_template is 'diskless'".  A
missing value or a value below the minimum yields a `disk_size` field
error and no entry in `cleaned_data`. -/
def diskSizeFieldClean (raw : Option Int) : Option Int × Bool :=
  match raw with
  | none => (none, true)
  | some v => if v < 100 then (none, true) else (some v, false)

/-- Placeholder message for the field-stage `disk_size` error (only the
presence of the key matters to the claims). -/
def diskSizeFieldMsg : String := "Enter a valid disk size of at least 100 MB"

/-- The `self._errors` state entering `clean` when the only field-stage
failure is `disk_size`. -/
def diskSizeFieldErrors (fieldError : Bool) : Errors :=
  if fieldError then [("disk_size", diskSizeFieldMsg)] else []

/-- The creation request of the spec's memory-quota scenario: a benign
`plain`-template request (no structural errors, no hypervisor selected)
asking for `mem` of memory with `start=true`. -/
def c4Data (mem : Int) : NewVMData where
  disk_template := some "plain"
  disk_size := some 200
  pnode := "node1.example.org"
  snode := ""
  iallocator := false
  iallocator_hostname := ""
  boot_order := "disk"
  cdrom_image_path := ""
  hypervisor := none
  disk_type := none
  nic_type := none
  start := true
  memory := some mem
  vcpus := some 1
  owner := some 7
  cluster := some 3
  grantee := none

/-- The owner of that scenario: an individual (not an organization) acting
for themselves, holding `create_vm` on the cluster. -/
def c4Owner : Owner where
  isOrg := false
  userIsMember := true
  userIdMatches := true
  hasCreateVm := true
  hasAdmin := false
  granteeId := 7

/-! ## Theorems -/

/-! ### Error-map lemmas -/

theorem any_filter_ne (k k' : String) (e : Errors) (h : k ≠ k') :
    (e.filter (fun p => p.1 != k')).any (fun p => p.1 == k)
      = e.any (fun p => p.1 == k) := by
  induction e with
  | nil => rfl
  | cons p tl ih =>
      by_cases hp : p.1 = k
      · have h1 : (p.1 != k') = true := by
          rw [bne_iff_ne]; rw [hp]; exact h
        have h2 : (p.1 == k) = true := by rw [beq_iff_eq]; exact hp
        simp [List.filter_cons, h1, h2]
      · have h2 : (p.1 == k) = false := by
          rw [beq_eq_false_iff_ne]; exact hp
        by_cases hq : p.1 = k'
        · have h1 : (p.1 != k') = false := by
            simp only [bne_eq_false_iff_eq]; exact hq
          simp [List.filter_cons, h1, h2, ih]
        · have h1 : (p.1 != k') = true := by rw [bne_iff_ne]; exact hq
          simp [List.filter_cons, h1, h2, ih]

theorem find?_filter_ne (k k' : String) (e : Errors) (h : k ≠ k') :
    (e.filter (fun p => p.1 != k')).find? (fun p => p.1 == k)
      = e.find? (fun p => p.1 == k) := by
  induction e with
  | nil => rfl
  | cons p tl ih =>
      by_cases hp : p.1 = k
      · have h1 : (p.1 != k') = true := by
          rw [bne_iff_ne]; rw [hp]; exact h
        have h2 : (p.1 == k) = true := by rw [beq_iff_eq]; exact hp
        simp [List.filter_cons, h1, List.find?_cons, h2]
      · have h2 : (p.1 == k) = false := by
          rw [beq_eq_false_iff_ne]; exact hp
        by_cases hq : p.1 = k'
        · have h1 : (p.1 != k') = false := by
            simp only [bne_eq_false_iff_eq]; exact hq
          simp [List.filter_cons, h1, List.find?_cons, h2, ih]
        · have h1 : (p.1 != k') = true := by rw [bne_iff_ne]; exact hq
          simp [List.filter_cons, h1, List.find?_cons, h2, ih]

theorem ehas_eset_self (k v : String) (e : Errors) : ehas k (eset k v e) = true := by
  simp [ehas, eset]

theorem ehas_eset_ne (k k' v : String) (e : Errors) (h : k ≠ k') :
    ehas k (eset k' v e) = ehas k e := by
  have hk : (k' == k) = false := by
    rw [beq_eq_false_iff_ne]; exact fun h' => h h'.symm
  simp only [ehas, eset, List.any_cons, hk, Bool.false_or]
  exact any_filter_ne k k' e h

theorem ehas_edel_ne (k k' : String) (e : Errors) (h : k ≠ k') :
    ehas k (edel k' e) = ehas k e := by
  simp only [ehas, edel]
  exact any_filter_ne k k' e h

theorem eget_eset_self (k v : String) (e : Errors) : eget k (eset k v e) = some v := by
  simp [eget, eset]

theorem eget_eset_ne (k k' v : String) (e : Errors) (h : k ≠ k') :
    eget k (eset k' v e) = eget k e := by
  have hk : (k' == k) = false := by
    rw [beq_eq_false_iff_ne]; exact fun h' => h h'.symm
  simp only [eget, eset]
  rw [List.find?_cons_of_neg _ (by simp [hk]), find?_filter_ne k k' e h]

theorem ehas_ne_nil (k : String) (e : Errors) (h : ehas k e = true) : e ≠ [] := by
  intro hnil
  subst hnil
  simp [ehas] at h

/-! ### C1 — hostname recovery -/

/-- C1 counterexample.  At the claim's own precondition — an existing VM on
the same (cluster, hostname) with `pending_delete=false`, `template=None`
and the requesting owner — `clean_hostname` raises the hostname-conflict
`ValidationError` and stores no `vm_recovery`, instead of accepting the
request as a recovery. -/
theorem clean_hostname_template_none_conflicts :
    (clean_hostname (some 1) (some ⟨false, none, 1⟩)
        (some "web1.example.com") true).raised = some hostnameConflictMsg ∧
    (clean_hostname (some 1) (some ⟨false, none, 1⟩)
        (some "web1.example.com") true).vm_recovery = none := by
  constructor <;> rfl

/-- C1 (amended).  For every creation request naming a (cluster, hostname)
pair with an existing VM, if that VM has `pending_delete=false` and a
template that is NOT `None` (the failed-deployment marker) and its owner
equals the requesting owner, hostname validation accepts the request and
stores the VM as `vm_recovery` instead of raising a conflict. -/
theorem clean_hostname_recovery (o : Nat) (vm : ExistingVM) (h : String)
    (hpd : vm.pending_delete = false) (ht : vm.template.isSome = true)
    (how : vm.owner = o) (hh : h ≠ "") :
    clean_hostname (some o) (some vm) (some h) true =
      ⟨none, none, some vm, some h⟩ := by
  simp only [clean_hostname, Option.getD_some]
  rw [if_pos ⟨hh, trivial⟩, if_pos (by simp [hpd, ht]), if_pos (by simp [how])]

/-- C1 witness: the amended theorem applied to a concrete recoverable VM. -/
theorem clean_hostname_recovery_witness :
    clean_hostname (some 4) (some ⟨false, some 9, 4⟩) (some "db1.example.org") true =
      ⟨none, none, some ⟨false, some 9, 4⟩, some "db1.example.org"⟩ :=
  clean_hostname_recovery 4 ⟨false, some 9, 4⟩ "db1.example.org"
    rfl rfl rfl (by decide)

/-! ### C10 — rename hostname validation -/

/-- C10.  `RenameForm.clean_hostname` raises a validation error when the
new hostname equals the VM's current hostname, and returns any hostname
different from the current one unchanged. -/
theorem rename_clean_hostname_spec (vh h : String) :
    (h ≠ "" → h = vh → rename_clean_hostname vh (some h) = .error renameHostnameMsg) ∧
    (h ≠ vh → rename_clean_hostname vh (some h) = .ok (some h)) := by
  constructor
  · intro hne heq
    simp only [rename_clean_hostname, Option.getD_some]
    rw [if_pos ⟨hne, heq⟩]
  · intro hne
    simp only [rename_clean_hostname, Option.getD_some]
    rw [if_neg (fun hc => hne hc.2)]

/-- C10 witness: both branches of the theorem at concrete hostnames. -/
theorem rename_clean_hostname_witness :
    rename_clean_hostname "vm1.example.org" (some "vm1.example.org")
        = .error renameHostnameMsg ∧
    rename_clean_hostname "vm1.example.org" (some "vm2.example.org")
        = .ok (some "vm2.example.org") :=
  ⟨(rename_clean_hostname_spec "vm1.example.org" "vm1.example.org").1
      (by decide) rfl,
   (rename_clean_hostname_spec "vm1.example.org" "vm2.example.org").2
      (by decide)⟩

/-! ### C5 — evacuate: automatic allocation vs. explicit node -/

/-- C5 counterexample.  With both automatic allocation and an explicit node
selected, `EvacuateForm.clean` does not reject at all: it accepts the data
with the explicit node cleared. -/
theorem evacuate_clean_both_selected_accepted :
    evacuate_clean ⟨true, some "allocator.example.org", some "node2.example.org"⟩ =
      .ok ⟨true, some "allocator.example.org", none⟩ := by
  rfl

/-- C5 (amended).  Selecting automatic allocation (even together with an
explicit node) is accepted with the explicit node cleared — automatic
allocation supersedes the node choice; the request is rejected, exactly
once and with a single top-level (non-field) error, precisely when neither
automatic allocation nor a non-empty node is selected. -/
theorem evacuate_clean_spec (d : EvacData) :
    (d.iallocator = true → evacuate_clean d = .ok { d with node := none }) ∧
    (d.iallocator = false → d.node.getD "" = "" →
      evacuate_clean d = .error evacChooseMsg) := by
  constructor
  · intro hi
    simp [evacuate_clean, hi]
  · intro hi hn
    simp [evacuate_clean, hi, hn]

/-- C5 witness: both branches of the theorem at concrete data. -/
theorem evacuate_clean_spec_witness :
    evacuate_clean ⟨true, some "alloc.example.org", some "node3.example.org"⟩ =
      .ok ⟨true, some "alloc.example.org", none⟩ ∧
    evacuate_clean ⟨false, some "alloc.example.org", none⟩ =
      .error evacChooseMsg :=
  ⟨(evacuate_clean_spec ⟨true, some "alloc.example.org", some "node3.example.org"⟩).1 rfl,
   (evacuate_clean_spec ⟨false, some "alloc.example.org", none⟩).2 rfl rfl⟩

/-! ### C2 — node role change with only `migrate` permission -/

/-- C2 counterexample.  A non-superuser holding only the `migrate`
permission submits a valid role change to `drained`: the view does not
return the authorization failure and the job IS submitted to the external
job service. -/
theorem role_migrate_only_submits :
    role ⟨false, ["migrate"]⟩ (some "drained") (fun _ => .ok "job info") =
      (.jobInfo "job info", true) := by
  rfl

/-- C2 (amended).  The role view admits `migrate` alongside `admin`
(`has_any_perms(cluster, ['admin', 'migrate'])`): a non-superuser with only
the `migrate` permission passes the authorization gate and, on a valid
form, the job is submitted; the authorization failure (403, no job) occurs
precisely when the user is no superuser and holds neither `admin` nor
`migrate`. -/
theorem role_permission_gate (u : WebUser) (r : String)
    (svc : String → Except String String)
    (hsu : u.is_superuser = false) :
    (u.cluster_perms = ["migrate"] →
      (role u (some r) svc).1 ≠ .forbidden ∧ (role u (some r) svc).2 = true) ∧
    (u.cluster_perms.contains "admin" = false →
      u.cluster_perms.contains "migrate" = false →
      role u (some r) svc = (.forbidden, false)) := by
  constructor
  · intro hp
    simp only [role]
    rw [if_neg (by simp [has_any_perms, hp, hsu])]
    cases svc r with
    | ok info => exact ⟨by simp, rfl⟩
    | error e => exact ⟨by simp, rfl⟩
  · intro ha hm
    have hgate : ¬(u.is_superuser = true ∨ has_any_perms u ["admin", "migrate"] = true) := by
      rintro (h1 | h2)
      · rw [hsu] at h1; cases h1
      · have hf : has_any_perms u ["admin", "migrate"] = false := by
          simp only [has_any_perms, List.any_cons, List.any_nil]
          rw [ha, hm]
          rfl
        rw [hf] at h2; cases h2
    simp only [role]
    rw [if_pos hgate]

/-! ### Step lemmas for `check_quota_modify` -/

theorem quotaRamModify_disk_size (q : QuotaDict) (u : UsedResources)
    (vm : VMReservation) (de : QuotaData × Errors) :
    (quotaRamModify q u vm de).1.disk_size = de.1.disk_size := by
  rcases hq : q.ram with _ | qr <;> simp only [quotaRamModify, hq]
  split <;> rfl

theorem quotaRamModify_start (q : QuotaDict) (u : UsedResources)
    (vm : VMReservation) (de : QuotaData × Errors) :
    (quotaRamModify q u vm de).1.start = de.1.start := by
  rcases hq : q.ram with _ | qr <;> simp only [quotaRamModify, hq]
  split <;> rfl

theorem quotaRamModify_vcpus (q : QuotaDict) (u : UsedResources)
    (vm : VMReservation) (de : QuotaData × Errors) :
    (quotaRamModify q u vm de).1.vcpus = de.1.vcpus := by
  rcases hq : q.ram with _ | qr <;> simp only [quotaRamModify, hq]
  split <;> rfl

theorem quotaDiskModify_start (q : QuotaDict) (u : UsedResources)
    (de : QuotaData × Errors) :
    (quotaDiskModify q u de).1.start = de.1.start := by
  rcases hq : q.disk with _ | qd <;> simp only [quotaDiskModify, hq, ite_self]
  split
  · split <;> rfl
  · rfl

theorem quotaDiskModify_vcpus (q : QuotaDict) (u : UsedResources)
    (de : QuotaData × Errors) :
    (quotaDiskModify q u de).1.vcpus = de.1.vcpus := by
  rcases hq : q.disk with _ | qd <;> simp only [quotaDiskModify, hq, ite_self]
  split
  · split <;> rfl
  · rfl

theorem ehas_quotaRamModify_ne (k : String) (hk : k ≠ "ram") (q : QuotaDict)
    (u : UsedResources) (vm : VMReservation) (de : QuotaData × Errors) :
    ehas k (quotaRamModify q u vm de).2 = ehas k de.2 := by
  rcases hq : q.ram with _ | qr <;> simp only [quotaRamModify, hq]
  split
  · exact ehas_eset_ne k "ram" ramModifyMsg de.2 hk
  · rfl

theorem ehas_quotaDiskModify_ne (k : String) (hk : k ≠ "disk_size")
    (q : QuotaDict) (u : UsedResources) (de : QuotaData × Errors) :
    ehas k (quotaDiskModify q u de).2 = ehas k de.2 := by
  rcases hq : q.disk with _ | qd <;> simp only [quotaDiskModify, hq, ite_self]
  split
  · split
    · exact ehas_eset_ne k "disk_size" diskQuotaMsg de.2 hk
    · rfl
  · rfl

theorem ehas_quotaCpuModify_ne (k : String) (hk : k ≠ "vcpus") (q : QuotaDict)
    (u : UsedResources) (vm : VMReservation) (de : QuotaData × Errors) :
    ehas k (quotaCpuModify q u vm de).2 = ehas k de.2 := by
  rcases hq : q.virtual_cpus with _ | qv <;> simp only [quotaCpuModify, hq]
  split
  · exact ehas_eset_ne k "vcpus" vcpuModifyMsg de.2 hk
  · rfl

theorem eget_quotaRamModify_ne (k : String) (hk : k ≠ "ram") (q : QuotaDict)
    (u : UsedResources) (vm : VMReservation) (de : QuotaData × Errors) :
    eget k (quotaRamModify q u vm de).2 = eget k de.2 := by
  rcases hq : q.ram with _ | qr <;> simp only [quotaRamModify, hq]
  split
  · exact eget_eset_ne k "ram" ramModifyMsg de.2 hk
  · rfl

theorem eget_quotaDiskModify_ne (k : String) (hk : k ≠ "disk_size")
    (q : QuotaDict) (u : UsedResources) (de : QuotaData × Errors) :
    eget k (quotaDiskModify q u de).2 = eget k de.2 := by
  rcases hq : q.disk with _ | qd <;> simp only [quotaDiskModify, hq, ite_self]
  split
  · split
    · exact eget_eset_ne k "disk_size" diskQuotaMsg de.2 hk
    · rfl
  · rfl

theorem eget_quotaCpuModify_ne (k : String) (hk : k ≠ "vcpus") (q : QuotaDict)
    (u : UsedResources) (vm : VMReservation) (de : QuotaData × Errors) :
    eget k (quotaCpuModify q u vm de).2 = eget k de.2 := by
  rcases hq : q.virtual_cpus with _ | qv <;> simp only [quotaCpuModify, hq]
  split
  · exact eget_eset_ne k "vcpus" vcpuModifyMsg de.2 hk
  · rfl

theorem eget_check_quota_modify_ne (k : String) (h1 : k ≠ "ram")
    (h2 : k ≠ "disk_size") (h3 : k ≠ "vcpus") (op : Bool) (q : QuotaDict)
    (u : UsedResources) (vm : VMReservation) (d : QuotaData) (e : Errors) :
    eget k (check_quota_modify op q u vm d e).2 = eget k e := by
  cases op
  · rfl
  · have hrep : check_quota_modify true q u vm d e =
        quotaCpuModify q u vm (quotaDiskModify q u (quotaRamModify q u vm (d, e))) := rfl
    rw [hrep, eget_quotaCpuModify_ne k h3, eget_quotaDiskModify_ne k h2,
      eget_quotaRamModify_ne k h1]

theorem quotaRamModify_err_iff (q : QuotaDict) (u : UsedResources)
    (vm : VMReservation) (de : QuotaData × Errors) :
    (ehas "ram" (quotaRamModify q u vm de).2 = true ↔
      (ehas "ram" de.2 = true ∨
        (de.1.start = true ∧ ∃ qr, q.ram = some qr ∧
          u.ram + de.1.memory.getD 0 - vm.ram > qr))) := by
  rcases hq : q.ram with _ | qr <;> simp only [quotaRamModify, hq]
  · simp
  · by_cases hc : de.1.start = true ∧ u.ram + de.1.memory.getD 0 - vm.ram > qr
    · rw [if_pos hc]
      simp [ehas_eset_self, hc.1, hc.2]
    · rw [if_neg hc]
      constructor
      · intro h
        exact Or.inl h
      · rintro (h | ⟨hs, qr', hqr', hgt⟩)
        · exact h
        · injection hqr' with h'
          refine absurd ⟨hs, ?_⟩ hc
          rw [h']
          exact hgt

theorem quotaDiskModify_err_iff (q : QuotaDict) (u : UsedResources)
    (de : QuotaData × Errors) :
    (ehas "disk_size" (quotaDiskModify q u de).2 = true ↔
      (ehas "disk_size" de.2 = true ∨
        (∃ s qd, de.1.disk_size = some s ∧ q.disk = some qd ∧ qd ≠ 0 ∧
          u.disk + s > qd))) := by
  rcases hds : de.1.disk_size with _ | s <;>
    simp only [quotaDiskModify, hds, Option.isSome_none, Option.isSome_some,
      Option.getD_some, Bool.false_eq_true, if_false, if_true]
  · simp
  · rcases hq : q.disk with _ | qd <;> simp only [hq]
    · simp
    · by_cases hc : qd ≠ 0 ∧ u.disk + s > qd
      · rw [if_pos hc]
        constructor
        · intro _
          exact Or.inr ⟨s, qd, rfl, rfl, hc.1, hc.2⟩
        · intro _
          exact ehas_eset_self "disk_size" diskQuotaMsg de.2
      · rw [if_neg hc]
        constructor
        · intro h
          exact Or.inl h
        · rintro (h | ⟨s', qd', hs', hqd', hz, hgt⟩)
          · exact h
          · injection hs' with hs''
            injection hqd' with hq''
            refine absurd ⟨?_, ?_⟩ hc
            · rw [hq'']
              exact hz
            · rw [hs'', hq'']
              exact hgt

theorem quotaCpuModify_err_iff (q : QuotaDict) (u : UsedResources)
    (vm : VMReservation) (de : QuotaData × Errors) :
    (ehas "vcpus" (quotaCpuModify q u vm de).2 = true ↔
      (ehas "vcpus" de.2 = true ∨
        (de.1.start = true ∧ ∃ qv, q.virtual_cpus = some qv ∧
          u.virtual_cpus + de.1.vcpus.getD 0 - vm.virtual_cpus > qv))) := by
  rcases hq : q.virtual_cpus with _ | qv <;> simp only [quotaCpuModify, hq]
  · simp
  · by_cases hc : de.1.start = true ∧
        u.virtual_cpus + de.1.vcpus.getD 0 - vm.virtual_cpus > qv
    · rw [if_pos hc]
      simp [ehas_eset_self, hc.1, hc.2]
    · rw [if_neg hc]
      constructor
      · intro h
        exact Or.inl h
      · rintro (h | ⟨hs, qv', hqv', hgt⟩)
        · exact h
        · injection hqv' with h'
          refine absurd ⟨hs, ?_⟩ hc
          rw [h']
          exact hgt

/-! ### C3 — modification quota arithmetic -/

/-- C3 counterexample.  A VM currently holding 100 of disk, owner usage 100,
disk limit 150, modification requesting `disk_size=100`: the delta rule the
claim states (`used + requested - previousReservation <= limit`, here
`100 + 100 - 100 = 100 <= 150`) reports no violation — the spec-side
`checkQuotaDeltaSpec` returns no violations — yet `check_quota_modify`
attaches the `disk_size` error, because its disk check subtracts no
previous reservation. -/
theorem check_quota_modify_ignores_disk_reservation :
    ehas "disk_size" (check_quota_modify true ⟨none, some 150, none⟩
        ⟨0, 100, 0⟩ ⟨0, 0⟩ ⟨true, some 0, some 0, some 100⟩ []).2 = true ∧
    checkQuotaDeltaSpec ⟨none, some 150, none⟩ ⟨0, 100, 0⟩ 0 0 100
        ⟨true, some 0, some 0, some 100⟩ = [] := by
  constructor <;> rfl

/-- C3 (amended).  In `check_quota_modify`, RAM and vCPU are checked as
deltas — `used + requested - (VM's current reservation) > limit`, each only
when the VM is flagged to start and the limit is set — but disk is checked
absolutely: `used + requested > limit` with no subtraction of the VM's
current disk, and only when a `disk_size` value is present and the disk
limit is set and non-zero. -/
theorem check_quota_modify_characterization (q : QuotaDict)
    (u : UsedResources) (vm : VMReservation) (d : QuotaData) :
    (ehas "ram" (check_quota_modify true q u vm d []).2 = true ↔
      (d.start = true ∧ ∃ qr, q.ram = some qr ∧
        u.ram + d.memory.getD 0 - vm.ram > qr)) ∧
    (ehas "disk_size" (check_quota_modify true q u vm d []).2 = true ↔
      (∃ s qd, d.disk_size = some s ∧ q.disk = some qd ∧ qd ≠ 0 ∧
        u.disk + s > qd)) ∧
    (ehas "vcpus" (check_quota_modify true q u vm d []).2 = true ↔
      (d.start = true ∧ ∃ qv, q.virtual_cpus = some qv ∧
        u.virtual_cpus + d.vcpus.getD 0 - vm.virtual_cpus > qv)) := by
  have hrep : check_quota_modify true q u vm d [] =
      quotaCpuModify q u vm (quotaDiskModify q u (quotaRamModify q u vm (d, []))) := rfl
  refine ⟨?_, ?_, ?_⟩
  · rw [hrep, ehas_quotaCpuModify_ne "ram" (by decide),
      ehas_quotaDiskModify_ne "ram" (by decide), quotaRamModify_err_iff]
    simp [ehas]
  · rw [hrep, ehas_quotaCpuModify_ne "disk_size" (by decide),
      quotaDiskModify_err_iff, ehas_quotaRamModify_ne "disk_size" (by decide),
      quotaRamModify_disk_size]
    simp [ehas]
  · rw [hrep, quotaCpuModify_err_iff,
      ehas_quotaDiskModify_ne "vcpus" (by decide),
      ehas_quotaRamModify_ne "vcpus" (by decide),
      quotaDiskModify_start, quotaRamModify_start,
      quotaDiskModify_vcpus, quotaRamModify_vcpus]
    simp [ehas]

/-- C7.  The quota check is a pure function of the quota record, the
used-resources snapshot, the VM's prior reservation and the requested
data: evaluating it twice on identical inputs yields identical results
(the same error fields and the same removals), both for the modification
check and for the creation-time quota/permission stage. -/
theorem quota_check_deterministic (op : Bool) (q : QuotaDict)
    (u : UsedResources) (vm : VMReservation) (d : QuotaData) (e : Errors)
    (su : Bool) (owner : Option Owner) (q' : QuotaDict)
    (u' : UsedResources) (s : VMState) :
    check_quota_modify op q u vm d e = check_quota_modify op q u vm d e ∧
    permQuotaCheck su owner q' u' s = permQuotaCheck su owner q' u' s :=
  ⟨rfl, rfl⟩

/-- C2 witness: both branches of the theorem at concrete users. -/
theorem role_permission_gate_witness :
    ((role ⟨false, ["migrate"]⟩ (some "drained") (fun _ => .ok "info")).1 ≠ .forbidden ∧
      (role ⟨false, ["migrate"]⟩ (some "drained") (fun _ => .ok "info")).2 = true) ∧
    role ⟨false, []⟩ (some "drained") (fun _ => .ok "info") = (.forbidden, false) :=
  ⟨(role_permission_gate ⟨false, ["migrate"]⟩ "drained" (fun _ => .ok "info") rfl).1 rfl,
   (role_permission_gate ⟨false, []⟩ "drained" (fun _ => .ok "info") rfl).2 rfl rfl⟩

/-! ### C8 — superusers bypass permission and quota checks -/

/-- C8.  For a superuser the whole ownership/membership, cluster-permission
and quota stage of `NewVirtualMachineForm.clean` (lines 310-356) is the
identity on the form state, whatever the owner, quota and usage: no error
is attached to `owner`, `ram`, `disk_size` or `vcpus` and every value in
the accepted data survives. -/
theorem permQuotaCheck_superuser (owner : Option Owner) (q : QuotaDict)
    (u : UsedResources) (s : VMState) :
    permQuotaCheck true owner q u s = s := by
  rcases owner with _ | o <;> simp [permQuotaCheck]

/-! ### C9 — initrd without kernel on modification -/

/-- C9.  When `initrd_path` is non-empty but `kernel_path` is empty,
`ModifyVirtualMachineForm.clean` attaches the same message to both the
`kernel_path` and `initrd_path` errors and removes `initrd_path` from the
accepted data, whatever the rest of the form holds. -/
theorem modify_clean_kernel_initrd (op rb run : Bool) (q : QuotaDict)
    (u : UsedResources) (vm : VMReservation) (d : ModifyData) (e : Errors)
    (hi : d.initrd_path.getD "" ≠ "") (hk : d.kernel_path.getD "" = "") :
    eget "kernel_path" (modify_clean op rb run q u vm d e).2 = some kernelPathMsg ∧
    eget "initrd_path" (modify_clean op rb run q u vm d e).2 = some kernelPathMsg ∧
    (modify_clean op rb run q u vm d e).1.initrd_path = none := by
  have LEk : eget "kernel_path"
      (eset "initrd_path" kernelPathMsg (eset "kernel_path" kernelPathMsg e))
        = some kernelPathMsg := by
    rw [eget_eset_ne "kernel_path" "initrd_path" kernelPathMsg _ (by decide),
      eget_eset_self]
  have LEi : eget "initrd_path"
      (eset "initrd_path" kernelPathMsg (eset "kernel_path" kernelPathMsg e))
        = some kernelPathMsg := eget_eset_self _ _ _
  have Lck : ∀ (dq : QuotaData) (e' : Errors),
      eget "kernel_path" (check_quota_modify true q u vm dq e').2
        = eget "kernel_path" e' :=
    fun dq e' => eget_check_quota_modify_ne "kernel_path" (by decide) (by decide)
      (by decide) true q u vm dq e'
  have Lci : ∀ (dq : QuotaData) (e' : Errors),
      eget "initrd_path" (check_quota_modify true q u vm dq e').2
        = eget "initrd_path" e' :=
    fun dq e' => eget_check_quota_modify_ne "initrd_path" (by decide) (by decide)
      (by decide) true q u vm dq e'
  have Lvk : ∀ (v : String) (e' : Errors),
      eget "kernel_path" (eset "vnc_x509_path" v e') = eget "kernel_path" e' :=
    fun v e' => eget_eset_ne "kernel_path" "vnc_x509_path" v e' (by decide)
  have Lvi : ∀ (v : String) (e' : Errors),
      eget "initrd_path" (eset "vnc_x509_path" v e') = eget "initrd_path" e' :=
    fun v e' => eget_eset_ne "initrd_path" "vnc_x509_path" v e' (by decide)
  simp only [modify_clean]
  rw [if_pos (show d.initrd_path.getD "" ≠ "" ∧ d.kernel_path.getD "" = ""
    from ⟨hi, hk⟩)]
  refine ⟨?_, ?_, ?_⟩ <;> repeat' split
  all_goals simp [Lck, Lci, Lvk, Lvi, LEk, LEi]

/-- C9 witness: the theorem at a concrete modification with
`initrd_path='/boot/initrd.img'` and no kernel path. -/
theorem modify_clean_kernel_initrd_witness :
    eget "kernel_path" (modify_clean false false false ⟨none, none, none⟩
        ⟨0, 0, 0⟩ ⟨0, 0⟩
        ⟨none, some "/boot/initrd.img", false, none, false, some 512, some 1, none⟩
        []).2 = some kernelPathMsg ∧
    eget "initrd_path" (modify_clean false false false ⟨none, none, none⟩
        ⟨0, 0, 0⟩ ⟨0, 0⟩
        ⟨none, some "/boot/initrd.img", false, none, false, some 512, some 1, none⟩
        []).2 = some kernelPathMsg ∧
    (modify_clean false false false ⟨none, none, none⟩ ⟨0, 0, 0⟩ ⟨0, 0⟩
        ⟨none, some "/boot/initrd.img", false, none, false, some 512, some 1, none⟩
        []).1.initrd_path = none :=
  modify_clean_kernel_initrd false false false ⟨none, none, none⟩ ⟨0, 0, 0⟩
    ⟨0, 0⟩ ⟨none, some "/boot/initrd.img", false, none, false, some 512, some 1, none⟩
    [] (by decide) rfl

/-! ### C4 — creation memory quota: error key and data removal -/

/-- `hvChecks` is the identity when no hypervisor value survived cleaning
(`data.get('hypervisor')` is `None`): none of the per-hypervisor conditions
can fire. -/
theorem hvChecks_none (c : HvConsts) (s : VMState)
    (h : s.data.hypervisor = none) : hvChecks c s = s := by
  simp [hvChecks, h]

/-- C4 counterexample.  At the spec's own scenario — quota ram 4096, used
3000, request memory 2000, start=true — the creation `clean` attaches NO
error under the `memory` field: the error lands under the `ram` key (while
`memory` is indeed dropped from the accepted data). -/
theorem newVMClean_quota_no_memory_key :
    ehas "memory" (newVMClean false (some c4Owner) ⟨some 4096, none, none⟩
        ⟨3000, 0, 0⟩ ⟨[], [], [], [], [], [], []⟩
        ⟨c4Data 2000, []⟩).errors = false ∧
    ehas "ram" (newVMClean false (some c4Owner) ⟨some 4096, none, none⟩
        ⟨3000, 0, 0⟩ ⟨[], [], [], [], [], [], []⟩
        ⟨c4Data 2000, []⟩).errors = true := by
  constructor <;> rfl

/-- C4 (amended).  For a creation request with `start=true` whose
non-superuser owner has a set memory quota `l` on the cluster and
`used + requested > l`, validation attaches the quota error under the
`ram` key (not the `memory` field) and removes `memory` from the accepted
data. -/
theorem newVMClean_quota_ram_key (mem l ur : Int) (c : HvConsts)
    (hq : ur + mem > l) :
    ehas "ram" (newVMClean false (some c4Owner) ⟨some l, none, none⟩
        ⟨ur, 0, 0⟩ c ⟨c4Data mem, []⟩).errors = true ∧
    ehas "memory" (newVMClean false (some c4Owner) ⟨some l, none, none⟩
        ⟨ur, 0, 0⟩ c ⟨c4Data mem, []⟩).errors = false ∧
    (newVMClean false (some c4Owner) ⟨some l, none, none⟩
        ⟨ur, 0, 0⟩ c ⟨c4Data mem, []⟩).data.memory = none := by
  have hstep : newVMClean false (some c4Owner) ⟨some l, none, none⟩
      ⟨ur, 0, 0⟩ c ⟨c4Data mem, []⟩
        = hvChecks c (iallocCheck (cdromCheck (nodePairCheck
            (permQuotaCheck false (some c4Owner) ⟨some l, none, none⟩
              ⟨ur, 0, 0⟩
              (granteeAssign (some c4Owner) ⟨c4Data mem, []⟩))))) := rfl
  have hperm : permQuotaCheck false (some c4Owner) ⟨some l, none, none⟩
      ⟨ur, 0, 0⟩ (granteeAssign (some c4Owner) ⟨c4Data mem, []⟩)
        = ⟨⟨some "plain", some 200, "node1.example.org", "", false, "", "disk",
            "", none, none, none, true, none, some 1, some 7, some 3, some 7⟩,
           [("ram", ramNewMsg)]⟩ := by
    simp [granteeAssign, permQuotaCheck, quotaBlockNew, quotaValuesTruthy,
      c4Owner, c4Data, hq, eset]
  have htail : ∀ s : VMState, s.data.disk_template = some "plain" →
      s.data.boot_order = "disk" → s.data.iallocator = false →
      ehas "snode" s.errors = false →
      iallocCheck (cdromCheck (nodePairCheck s)) = s := by
    intro s h1 h2 h3 h4
    have hn : nodePairCheck s = s := by
      unfold nodePairCheck
      rw [if_neg (by rw [h1, h3]; intro hcon; exact absurd hcon.1 (by decide)),
        if_neg (by rw [h4]; exact Bool.false_ne_true)]
    have hc : cdromCheck s = s := by
      unfold cdromCheck
      rw [if_neg (by rw [h2]; intro hcon; exact absurd hcon.1 (by decide))]
    have hi : iallocCheck s = s := by
      unfold iallocCheck
      rw [if_neg (by rw [h3]; exact Bool.false_ne_true)]
    rw [hn, hc, hi]
  rw [hstep, hperm]
  have hS := htail ⟨⟨some "plain", some 200, "node1.example.org", "", false, "",
      "disk", "", none, none, none, true, none, some 1, some 7, some 3, some 7⟩,
      [("ram", ramNewMsg)]⟩ rfl rfl rfl rfl
  rw [hS, hvChecks_none c ⟨⟨some "plain", some 200, "node1.example.org", "",
      false, "", "disk", "", none, none, none, true, none, some 1, some 7,
      some 3, some 7⟩, [("ram", ramNewMsg)]⟩ rfl]
  exact ⟨rfl, rfl, rfl⟩

/-- C4 witness: the amended theorem at the spec's numbers (3000+2000>4096). -/
theorem newVMClean_quota_ram_key_witness :
    ehas "ram" (newVMClean false (some c4Owner) ⟨some 4096, none, none⟩
        ⟨3000, 0, 0⟩ ⟨[], [], [], [], [], [], []⟩ ⟨c4Data 2000, []⟩).errors = true ∧
    ehas "memory" (newVMClean false (some c4Owner) ⟨some 4096, none, none⟩
        ⟨3000, 0, 0⟩ ⟨[], [], [], [], [], [], []⟩ ⟨c4Data 2000, []⟩).errors = false ∧
    (newVMClean false (some c4Owner) ⟨some 4096, none, none⟩
        ⟨3000, 0, 0⟩ ⟨[], [], [], [], [], [], []⟩ ⟨c4Data 2000, []⟩).data.memory = none :=
  newVMClean_quota_ram_key 2000 4096 3000 ⟨[], [], [], [], [], [], []⟩ (by decide)

/-! ### C6 — disk_size required unless diskless -/

theorem nodePairCheck_keeps (k : String) (hp : k ≠ "pnode") (hs : k ≠ "snode")
    (s : VMState) (h : ehas k s.errors = true) :
    ehas k (nodePairCheck s).errors = true := by
  unfold nodePairCheck
  split
  · split
    · simp only [ehas_eset_ne k "pnode" nodeMatchMsg s.errors hp]
      exact h
    · exact h
  · split
    · simp only [ehas_edel_ne k "snode" s.errors hs]
      exact h
    · exact h

theorem cdromCheck_keeps (k : String) (hc : k ≠ "cdrom_image_path")
    (s : VMState) (h : ehas k s.errors = true) :
    ehas k (cdromCheck s).errors = true := by
  unfold cdromCheck
  split
  · simp only [ehas_eset_ne k "cdrom_image_path" cdromPathMsg s.errors hc]
    exact h
  · exact h

theorem iallocCheck_keeps (k : String) (hp : k ≠ "pnode") (hs : k ≠ "snode")
    (hi : k ≠ "iallocator") (s : VMState) (h : ehas k s.errors = true) :
    ehas k (iallocCheck s).errors = true := by
  unfold iallocCheck
  split
  · split
    · simp only [ehas_edel_ne k "snode" (edel "pnode" s.errors) hs,
        ehas_edel_ne k "pnode" s.errors hp]
      exact h
    · simp only [ehas_eset_ne k "iallocator" iallocatorMsg s.errors hi]
      exact h
  · exact h

theorem diskSizeCheck_none_err (d : NewVMData) (e : Errors)
    (hdt : d.disk_template ≠ some "diskless") (hds : d.disk_size = none) :
    diskSizeCheck ⟨d, e⟩ = ⟨d, eset "disk_size" diskSizeMsg e⟩ := by
  simp only [diskSizeCheck]
  rw [if_pos hdt, if_pos (by rw [hds]; rfl)]

/-- C6.  For every creation request whose `disk_template` is not
`diskless`, a raw `disk_size` that is absent or at most zero leaves a
validation error attached to the `disk_size` field: the field stage
(`DataVolumeField(min_value=100)`, required) rejects the value, and the
`clean` structural check re-asserts the error for the then-missing value. -/
theorem newVMClean_disk_size_required (su : Bool) (owner : Option Owner)
    (q : QuotaDict) (u : UsedResources) (c : HvConsts) (d : NewVMData)
    (raw : Option Int)
    (hdt : d.disk_template ≠ some "diskless")
    (hraw : raw = none ∨ ∃ v, raw = some v ∧ v ≤ 0) :
    ehas "disk_size"
      (newVMClean su owner q u c
        ⟨{ d with disk_size := (diskSizeFieldClean raw).1 },
         diskSizeFieldErrors (diskSizeFieldClean raw).2⟩).errors = true := by
  have hfield : diskSizeFieldClean raw = (none, true) := by
    rcases hraw with h | ⟨v, hv, hle⟩
    · rw [h]; rfl
    · rw [hv]
      simp only [diskSizeFieldClean]
      rw [if_pos (by omega)]
  rw [hfield]
  have h1 : diskSizeCheck ⟨{ d with disk_size := none },
      diskSizeFieldErrors true⟩
        = ⟨{ d with disk_size := none },
           eset "disk_size" diskSizeMsg (diskSizeFieldErrors true)⟩ :=
    diskSizeCheck_none_err _ _ hdt rfl
  have h2 : ehas "disk_size"
      (iallocCheck (cdromCheck (nodePairCheck (diskSizeCheck
        ⟨{ d with disk_size := none }, diskSizeFieldErrors true⟩)))).errors
          = true := by
    rw [h1]
    exact iallocCheck_keeps _ (by decide) (by decide) (by decide) _
      (cdromCheck_keeps _ (by decide) _
        (nodePairCheck_keeps _ (by decide) (by decide) _
          (ehas_eset_self "disk_size" diskSizeMsg _)))
  simp only [newVMClean]
  rw [if_pos (ehas_ne_nil _ _ h2)]
  exact h2

/-- C6 witness: the theorem at a concrete non-diskless request with raw
disk_size 0. -/
theorem newVMClean_disk_size_required_witness :
    ehas "disk_size"
      (newVMClean false none ⟨none, none, none⟩ ⟨0, 0, 0⟩
        ⟨[], [], [], [], [], [], []⟩
        ⟨{ (⟨some "plain", some 200, "", "", false, "", "", "", none, none,
             none, false, some 512, some 1, none, none, none⟩ : NewVMData) with
             disk_size := (diskSizeFieldClean (some 0)).1 },
         diskSizeFieldErrors (diskSizeFieldClean (some 0)).2⟩).errors = true :=
  newVMClean_disk_size_required false none ⟨none, none, none⟩ ⟨0, 0, 0⟩
    ⟨[], [], [], [], [], [], []⟩
    ⟨some "plain", some 200, "", "", false, "", "", "", none, none, none,
      false, some 512, some 1, none, none, none⟩
    (some 0) (by decide) (Or.inr ⟨0, rfl, by decide⟩)

end GanetiWeb
